import Mathlib

/-!
Shallow embedding of `src/gcphcp/auth/google_auth.py` (class
`GoogleCloudAuth`): the credential store (`_load_stored_credentials`,
`_save_credentials`), the JWT payload email extractor
(`_extract_user_email`), the external-tool token source
(`_get_identity_token_without_audience`), the OAuth fallback
(`_perform_oauth_flow`, `_refresh_credentials`) and the orchestrating
`authenticate`.

Python runtime effects are made explicit:
* subprocess results, ambient credentials, the interactive OAuth flow and
  token refresh become fields of an `Env` record;
* the credential file and the mutable manager fields become a `World`
  record threaded through the operations;
* raised exceptions become the `Except PyErr` error monad;
* the standard-library pieces the code relies on (`json`,
  `base64.urlsafe_b64decode`, `bytes.decode` for UTF-8, `str.strip`,
  `str.lower`, `str.split`) are given executable models below.
-/

/-- JSON values as produced by Python's `json` module. Numbers keep their
source lexeme: none of the verified operations inspects numeric values. -/
inductive Json where
  | null : Json
  | bool (b : Bool) : Json
  | num (lexeme : String) : Json
  | str (s : String) : Json
  | arr (elems : List Json) : Json
  | obj (members : List (String × Json)) : Json

def isJsonWs (c : Char) : Bool :=
  c = ' ' || c = '\t' || c = '\n' || c = '\r'

def skipWs (cs : List Char) : List Char := cs.dropWhile isJsonWs

def hexVal (c : Char) : Option Nat :=
  if '0' ≤ c ∧ c ≤ '9' then some (c.toNat - '0'.toNat)
  else if 'a' ≤ c ∧ c ≤ 'f' then some (c.toNat - 'a'.toNat + 10)
  else if 'A' ≤ c ∧ c ≤ 'F' then some (c.toNat - 'A'.toNat + 10)
  else none

/-- Body of a JSON string literal after the opening quote.  Standard
escapes are honoured; `\uXXXX` is accepted for non-surrogate code points;
unescaped control characters are rejected as Python's strict default
does.  CPython's `json.loads` additionally accepts lone-surrogate
`\uD800`–`\uDFFF` escapes, producing strings a Lean `Char` cannot
represent, so escaped text is outside the modelled domain on the failure
side: the theorems below that rely on parse *failure* restrict
themselves to backslash-free text, where this parser fails exactly when
CPython raises; on the success side acceptance implies CPython parses
the same value. -/
def parseStrBody : List Char → List Char → Option (String × List Char)
  | [], _ => none
  | '"' :: rest, acc => some (String.mk acc.reverse, rest)
  | '\\' :: '"' :: rest, acc => parseStrBody rest ('"' :: acc)
  | '\\' :: '\\' :: rest, acc => parseStrBody rest ('\\' :: acc)
  | '\\' :: '/' :: rest, acc => parseStrBody rest ('/' :: acc)
  | '\\' :: 'b' :: rest, acc => parseStrBody rest ('\x08' :: acc)
  | '\\' :: 'f' :: rest, acc => parseStrBody rest ('\x0C' :: acc)
  | '\\' :: 'n' :: rest, acc => parseStrBody rest ('\n' :: acc)
  | '\\' :: 'r' :: rest, acc => parseStrBody rest ('\x0D' :: acc)
  | '\\' :: 't' :: rest, acc => parseStrBody rest ('\t' :: acc)
  | '\\' :: 'u' :: h1 :: h2 :: h3 :: h4 :: rest, acc =>
    (match hexVal h1, hexVal h2, hexVal h3, hexVal h4 with
     | some v1, some v2, some v3, some v4 =>
       let n := ((v1 * 16 + v2) * 16 + v3) * 16 + v4
       if n < 0xD800 ∨ 0xE000 ≤ n then parseStrBody rest (Char.ofNat n :: acc)
       else none
     | _, _, _, _ => none)
  | '\\' :: _, _ => none
  | c :: rest, acc => if c.toNat < 0x20 then none else parseStrBody rest (c :: acc)

def takeDigits : List Char → List Char × List Char
  | [] => ([], [])
  | c :: rest =>
    if c.isDigit then
      let r := takeDigits rest
      (c :: r.1, r.2)
    else ([], c :: rest)

def parseIntPart : List Char → Option (List Char × List Char)
  | '0' :: rest => some (['0'], rest)
  | c :: rest =>
    if '1' ≤ c ∧ c ≤ '9' then
      let r := takeDigits rest
      some (c :: r.1, r.2)
    else none
  | [] => none

def parseFracPart : List Char → Option (List Char × List Char)
  | '.' :: rest =>
    let r := takeDigits rest
    if r.1.isEmpty then none else some ('.' :: r.1, r.2)
  | cs => some ([], cs)

def parseExpPart : List Char → Option (List Char × List Char)
  | c :: s :: rest =>
    if c = 'e' ∨ c = 'E' then
      if s = '+' ∨ s = '-' then
        let r := takeDigits rest
        if r.1.isEmpty then none else some (c :: s :: r.1, r.2)
      else
        let r := takeDigits (s :: rest)
        if r.1.isEmpty then none else some (c :: r.1, r.2)
    else some ([], c :: s :: rest)
  | [c] =>
    if c = 'e' ∨ c = 'E' then none else some ([], [c])
  | [] => some ([], [])

/-- A JSON number lexeme (sign, integer part, optional fraction and
exponent), kept as a string. -/
def parseNumber (cs : List Char) : Option (String × List Char) :=
  let p := match cs with
    | '-' :: rest => (['-'], rest)
    | _ => (([] : List Char), cs)
  match parseIntPart p.2 with
  | none => none
  | some (ip, cs2) =>
    match parseFracPart cs2 with
    | none => none
    | some (fp, cs3) =>
      match parseExpPart cs3 with
      | none => none
      | some (ep, cs4) => some (String.mk (p.1 ++ ip ++ fp ++ ep), cs4)

mutual

/-- Recursive-descent JSON value parser; the fuel argument only bounds the
nesting depth (each unit of fuel is spent after consuming at least one
character, so `length + 1` fuel always suffices). -/
def parseValue : Nat → List Char → Option (Json × List Char)
  | 0, _ => none
  | fuel + 1, cs =>
    match skipWs cs with
    | 'n' :: 'u' :: 'l' :: 'l' :: rest => some (Json.null, rest)
    | 't' :: 'r' :: 'u' :: 'e' :: rest => some (Json.bool true, rest)
    | 'f' :: 'a' :: 'l' :: 's' :: 'e' :: rest => some (Json.bool false, rest)
    | 'N' :: 'a' :: 'N' :: rest => some (Json.num (String.mk ['N', 'a', 'N']), rest)
    | 'I' :: 'n' :: 'f' :: 'i' :: 'n' :: 'i' :: 't' :: 'y' :: rest =>
      some (Json.num (String.mk ['I', 'n', 'f']), rest)
    | '-' :: 'I' :: 'n' :: 'f' :: 'i' :: 'n' :: 'i' :: 't' :: 'y' :: rest =>
      some (Json.num (String.mk ['-', 'I', 'n', 'f']), rest)
    | '"' :: rest =>
      match parseStrBody rest [] with
      | some (s, r) => some (Json.str s, r)
      | none => none
    | '{' :: rest =>
      (match skipWs rest with
       | '}' :: rest2 => some (Json.obj [], rest2)
       | cs2 => parseMembers fuel cs2 [])
    | '[' :: rest =>
      (match skipWs rest with
       | ']' :: rest2 => some (Json.arr [], rest2)
       | cs2 => parseElems fuel cs2 [])
    | cs' =>
      match parseNumber cs' with
      | some (lx, r) => some (Json.num lx, r)
      | none => none

def parseMembers : Nat → List Char → List (String × Json) → Option (Json × List Char)
  | 0, _, _ => none
  | fuel + 1, cs, acc =>
    match skipWs cs with
    | '"' :: rest =>
      (match parseStrBody rest [] with
       | none => none
       | some (k, rest2) =>
         match skipWs rest2 with
         | ':' :: rest3 =>
           (match parseValue fuel rest3 with
            | none => none
            | some (v, rest4) =>
              match skipWs rest4 with
              | ',' :: rest5 => parseMembers fuel rest5 (acc ++ [(k, v)])
              | '}' :: rest5 => some (Json.obj (acc ++ [(k, v)]), rest5)
              | _ => none)
         | _ => none)
    | _ => none

def parseElems : Nat → List Char → List Json → Option (Json × List Char)
  | 0, _, _ => none
  | fuel + 1, cs, acc =>
    match parseValue fuel cs with
    | none => none
    | some (v, rest) =>
      match skipWs rest with
      | ',' :: rest2 => parseElems fuel rest2 (acc ++ [v])
      | ']' :: rest2 => some (Json.arr (acc ++ [v]), rest2)
      | _ => none

end

/-- Model of Python's `json.loads`: parse one value, allow surrounding
whitespace, reject trailing input. -/
def jsonLoads (s : String) : Option Json :=
  match parseValue (s.data.length + 1) s.data with
  | some (v, rest) => if skipWs rest = [] then some v else none
  | none => none

/-- Value of an alphabet character as `base64.urlsafe_b64decode` sees it:
that function first translates `-` to `+` and `_` to `/`, then decodes
with the standard alphabet, so `-`/`+` share value 62 and `_`/`/` share
value 63 and both alphabets are accepted. -/
def b64UrlVal (c : Char) : Option Nat :=
  if 'A' ≤ c ∧ c ≤ 'Z' then some (c.toNat - 'A'.toNat)
  else if 'a' ≤ c ∧ c ≤ 'z' then some (c.toNat - 'a'.toNat + 26)
  else if '0' ≤ c ∧ c ≤ '9' then some (c.toNat - '0'.toNat + 52)
  else if c = '-' ∨ c = '+' then some 62
  else if c = '_' ∨ c = '/' then some 63
  else none

/-- Model of `base64.urlsafe_b64decode`: groups of four characters decode
to three bytes, a final group may carry one or two `=` padding characters.
`none` stands for a raise — `binascii.Error` on inputs whose length is
not a multiple of four or whose padding is malformed, or the `ValueError`
of the ASCII pre-encoding on non-ASCII input.  The model and CPython
agree on every input made of alphabet characters with at most trailing
`=` padding; CPython additionally *discards* other ASCII bytes before
decoding, so inputs carrying such junk (or stray mid-stream `=`) lie
outside the modelled domain, and the theorems below that rely on decode
*failure* restrict themselves to alphabet-only payloads, where failure
coincides with CPython's raise (data length ≡ 1 mod 4). -/
def urlsafeB64decode : List Char → Option (List Nat)
  | [] => some []
  | c1 :: c2 :: c3 :: c4 :: rest =>
    (match b64UrlVal c1, b64UrlVal c2 with
     | some v1, some v2 =>
       if c3 = '=' then
         if c4 = '=' ∧ rest = [] then some [v1 * 4 + v2 / 16] else none
       else
         match b64UrlVal c3 with
         | some v3 =>
           if c4 = '=' then
             if rest = [] then some [v1 * 4 + v2 / 16, (v2 % 16) * 16 + v3 / 4] else none
           else
             match b64UrlVal c4 with
             | some v4 =>
               (urlsafeB64decode rest).map
                 (fun bs => (v1 * 4 + v2 / 16) :: ((v2 % 16) * 16 + v3 / 4) ::
                   ((v3 % 4) * 64 + v4) :: bs)
             | none => none
         | none => none
     | _, _ => none)
  | _ => none

/-- Model of `bytes.decode` for UTF-8: standard 1–4 byte sequences with
the usual overlong, surrogate and upper-bound exclusions; `none` stands
for `UnicodeDecodeError`. -/
def utf8Decode : List Nat → Option (List Char)
  | [] => some []
  | b1 :: rest =>
    if b1 < 0x80 then
      (utf8Decode rest).map (fun cs => Char.ofNat b1 :: cs)
    else if b1 < 0xC2 then none
    else if b1 < 0xE0 then
      match rest with
      | b2 :: r2 =>
        if 0x80 ≤ b2 ∧ b2 < 0xC0 then
          (utf8Decode r2).map (fun cs => Char.ofNat ((b1 - 0xC0) * 64 + (b2 - 0x80)) :: cs)
        else none
      | [] => none
    else if b1 < 0xF0 then
      match rest with
      | b2 :: b3 :: r2 =>
        let lo2 := if b1 = 0xE0 then 0xA0 else 0x80
        let hi2 := if b1 = 0xED then 0xA0 else 0xC0
        if lo2 ≤ b2 ∧ b2 < hi2 ∧ 0x80 ≤ b3 ∧ b3 < 0xC0 then
          (utf8Decode r2).map
            (fun cs => Char.ofNat (((b1 - 0xE0) * 64 + (b2 - 0x80)) * 64 + (b3 - 0x80)) :: cs)
        else none
      | _ => none
    else if b1 < 0xF5 then
      match rest with
      | b2 :: b3 :: b4 :: r2 =>
        let lo2 := if b1 = 0xF0 then 0x90 else 0x80
        let hi2 := if b1 = 0xF4 then 0x90 else 0xC0
        if lo2 ≤ b2 ∧ b2 < hi2 ∧ 0x80 ≤ b3 ∧ b3 < 0xC0 ∧ 0x80 ≤ b4 ∧ b4 < 0xC0 then
          (utf8Decode r2).map
            (fun cs => Char.ofNat ((((b1 - 0xF0) * 64 + (b2 - 0x80)) * 64 +
              (b3 - 0x80)) * 64 + (b4 - 0x80)) :: cs)
        else none
      | _ => none
    else none

/-- Characters Python's `str.strip()` removes. -/
def isPySpace (c : Char) : Bool :=
  c = ' ' || c = '\t' || c = '\n' || c = '\x0D' || c = '\x0B' || c = '\x0C'

/-- Model of `str.strip()` (ASCII whitespace; the messages involved are
ASCII). -/
def pyStrip (s : String) : String :=
  String.mk (((s.data.dropWhile isPySpace).reverse.dropWhile isPySpace).reverse)

/-- Model of `str.lower()` (ASCII; the phrases searched for are ASCII). -/
def strLower (s : String) : String := String.mk (s.data.map Char.toLower)

def listPrefixOf : List Char → List Char → Bool
  | [], _ => true
  | _ :: _, [] => false
  | a :: as, b :: bs => a = b && listPrefixOf as bs

/-- Model of Python's `needle in hay` substring test. -/
def listInfixOf (needle : List Char) : List Char → Bool
  | [] => listPrefixOf needle []
  | c :: t => listPrefixOf needle (c :: t) || listInfixOf needle t

/-- Model of Python's `str.split(sep)` for a one-character separator:
adjacent separators yield empty fields and the empty string splits to
`[""]`. -/
def splitOnChar (sep : Char) : List Char → List (List Char)
  | [] => [[]]
  | c :: rest =>
    if c = sep then [] :: splitOnChar sep rest
    else
      match splitOnChar sep rest with
      | h :: t => (c :: h) :: t
      | [] => [[c]]

/-- Modelled from the spec: the repository's `gcphcp.auth.exceptions`
module is not among the provided sources; spec section 7 lists the error
kinds `AuthenticationError` (general), `TokenRefreshError`
(refresh-specific subtype) and `CredentialsNotFoundError` (no usable
credential source), all user-facing and distinct.  The remaining
constructors model exceptions of the Python runtime and of the
`google.auth` library that the code under `src/` raises or catches:
`refreshError` and `defaultCredentialsError` for `google.auth.exceptions`,
`timeoutExpired` for `subprocess.TimeoutExpired`, `fileNotFoundError` for
`FileNotFoundError` and `attributeError` for `AttributeError`.  The
`cause` keyword argument of the project exceptions is dropped: only the
message is observable in the verified properties. -/
inductive PyErr where
  | authenticationError (msg : String)
  | tokenRefreshError (msg : String)
  | credentialsNotFoundError (msg : String)
  | refreshError (msg : String)
  | defaultCredentialsError (msg : String)
  | timeoutExpired
  | fileNotFoundError
  | attributeError (msg : String)
deriving DecidableEq, Repr

/-- `str(e)` of a modelled exception: the message it was built from. -/
def errMsg : PyErr → String
  | .authenticationError m => m
  | .tokenRefreshError m => m
  | .credentialsNotFoundError m => m
  | .refreshError m => m
  | .defaultCredentialsError m => m
  | .timeoutExpired => "timed out"
  | .fileNotFoundError => "file not found"
  | .attributeError m => m

/-- Modelled from the spec: which modelled exceptions an
`except AuthenticationError` clause catches — the general kind and its
project-specific subtypes per spec section 7. -/
def isAuthenticationError : PyErr → Bool
  | .authenticationError _ => true
  | .tokenRefreshError _ => true
  | .credentialsNotFoundError _ => true
  | _ => false

/-- Which modelled exceptions an `except (RefreshError,
DefaultCredentialsError)` clause catches. -/
def isRefreshOrDefaultCredsError : PyErr → Bool
  | .refreshError _ => true
  | .defaultCredentialsError _ => true
  | _ => false

/-- Outcome of one `subprocess.run` call: completion with exit code,
captured stdout and stderr, or the `TimeoutExpired` / `FileNotFoundError`
exceptions. -/
inductive ProcResult where
  | completed (returncode : Int) (stdout stderr : String)
  | timeoutExpired
  | fileNotFound
deriving DecidableEq, Repr

/-- Model of a `google.oauth2.credentials.Credentials` object as the code
under verification uses it.  Every field the code touches is kept;
`expired` models the library's expiry property.  The constructor performs
no validation, as the library constructor does not. -/
structure OAuth2Credentials where
  token : Option String
  refresh_token : Option String
  id_token : Option String
  token_uri : Option String
  client_id : Option String
  client_secret : Option String
  scopes : Option (List String)
  expired : Bool
deriving DecidableEq, Repr

/-- The mutable fields of a `GoogleCloudAuth` instance:
`self._credentials` and `self._user_email`. -/
structure AuthState where
  credentials : Option OAuth2Credentials
  user_email : Option String
deriving DecidableEq, Repr

/-- Contents of the credential file: either text that fails JSON parsing
(`json.load` raises `JSONDecodeError`) or a parsed JSON value.  (Python's
`json.dump` followed by `json.load` is the identity on the values the
store writes, so the file is modelled at the JSON level; the string-level
codec is exercised separately by the JWT payload pipeline.) -/
inductive FileContent where
  | malformed
  | json (j : Json)

/-- The credential file together with its permission bits. -/
structure FileData where
  content : FileContent
  mode : Nat

/-- The state `authenticate` can read and write: the in-memory manager
fields and the credential file (`none` = file absent). -/
structure World where
  auth : AuthState
  fs : Option FileData

/-- The external world: results of the two `gcloud` subprocess calls,
whether a client-secrets file is configured and exists, the outcome of
`google.auth.default()` (`none` models `DefaultCredentialsError`), the
outcome of the interactive `InstalledAppFlow` exchange, the outcome of
`Credentials.refresh` (`.error m` models `RefreshError`), and whether
writing the credential file succeeds. -/
structure Env where
  tokenProc : ProcResult
  accountProc : ProcResult
  clientSecretsAvailable : Bool
  defaultCreds : Option OAuth2Credentials
  flowResult : Except String OAuth2Credentials
  refreshResult : Except String OAuth2Credentials
  writeOk : Bool

/-- `REQUIRED_SCOPES` (google_auth.py lines 26-31). -/
def REQUIRED_SCOPES : List String :=
  ["openid", "email", "profile", "https://www.googleapis.com/auth/cloud-platform"]

/-- Python truthiness of an optional string (`None` and `""` are falsy). -/
def truthyStr : Option String → Bool
  | some s => if s = "" then false else true
  | none => false

/-- A Python value serialised into the credential record: a string or
`None`. -/
def optStrJson : Option String → Json
  | some s => Json.str s
  | none => Json.null

/-- `dict.get k` over the insertion-ordered member list `json.loads`
produces: later duplicates win, a missing key yields `none`. -/
def dictGet : List (String × Json) → String → Option Json
  | [], _ => none
  | (k', v) :: rest, k =>
    match dictGet rest k with
    | some r => some r
    | none => if k' = k then some v else none

/-- A fetched JSON member coerced to the optional-string field type of the
model (string value, or absent/`null`).  Records whose stored fields hold
other JSON types lie outside the typed model's domain: Python would pass
such values through unvalidated. -/
def jsonFieldStr : Option Json → Option String
  | some (Json.str s) => some s
  | _ => none

/-- All-strings reading of a JSON array, for the `scopes` member. -/
def jsonStrList : List Json → Option (List String)
  | [] => some []
  | Json.str s :: rest => (jsonStrList rest).map (fun l => s :: l)
  | _ => none

/-- The `scopes` value serialised by `_save_credentials`: a list of
strings or `None`. -/
def scopesJson : Option (List String) → Json
  | some l => Json.arr (l.map Json.str)
  | none => Json.null

/-- The `scopes` field as `_load_stored_credentials` produces it:
`cred_data.get("scopes", REQUIRED_SCOPES)` — the default applies only
when the key is absent; a present `null` loads as `None`. -/
def loadScopes (members : List (String × Json)) : Option (List String) :=
  match dictGet members ("scopes") with
  | none => some REQUIRED_SCOPES
  | some (Json.arr vs) => jsonStrList vs
  | some _ => none

/-- Padding restoration of `_extract_user_email` (lines 228-231): pad the
payload with `=` to a multiple of four characters. -/
def padPayload (payload : List Char) : List Char :=
  let padding := payload.length % 4
  if padding ≠ 0 then payload ++ List.replicate (4 - padding) '=' else payload

/-- The `try` body of `_extract_user_email` (lines 224-235).  `none` means
either fewer than two dot-separated segments (no decode attempted) or a
caught exception — in both cases `self._user_email` is not assigned;
`some e` means the assignment `self._user_email = token_data.get("email")`
ran with value `e`.  A payload parsing to a non-object raises inside the
`try` (`.get` on a non-dict) and is likewise caught. -/
def extractFromToken (tok : String) : Option (Option String) :=
  match splitOnChar ('.') tok.data with
  | _ :: payload :: _ =>
    (match urlsafeB64decode (padPayload payload) with
     | none => none
     | some bytes =>
       match utf8Decode bytes with
       | none => none
       | some chars =>
         match jsonLoads (String.mk chars) with
         | some (Json.obj members) => some (jsonFieldStr (dictGet members ("email")))
         | _ => none)
  | _ => none

/-- `_extract_user_email` (lines 203-240): prefer the cached email if
truthy; otherwise, if credentials with a truthy `id_token` exist, run the
decode pipeline, caching its result when the assignment is reached.
Returns the produced email together with the updated state; totality of
this function is the model of «never raises». -/
def extractUserEmail (a : AuthState) : Option String × AuthState :=
  if truthyStr a.user_email then (a.user_email, a)
  else
    match a.credentials with
    | some c =>
      if truthyStr c.id_token then
        match extractFromToken (c.id_token.getD ("")) with
        | some e => (e, { a with user_email := e })
        | none => (a.user_email, a)
      else (a.user_email, a)
    | none => (a.user_email, a)

/-- Default `token_uri` used by `_load_stored_credentials` when the key is
absent (line 129). -/
def credTokenUriDefault : String := "https://oauth2.googleapis.com/token"

/-- `_load_stored_credentials` (lines 109-142): absent file returns
`False`; `JSONDecodeError` (and the dead `KeyError` / `FileNotFoundError`
handlers) return `False`; a parsed JSON object is read with `.get`
defaults and loaded (returning `True`); a parsed non-object raises
`AttributeError` on the first `.get`, which no handler catches. -/
def loadStoredCredentials (w : World) : Except PyErr (Bool × World) :=
  match w.fs with
  | none => .ok (false, w)
  | some fd =>
    match fd.content with
    | .malformed => .ok (false, w)
    | .json (Json.obj members) =>
      let creds : OAuth2Credentials :=
        { token := jsonFieldStr (dictGet members ("token"))
          refresh_token := jsonFieldStr (dictGet members ("refresh_token"))
          id_token := jsonFieldStr (dictGet members ("id_token"))
          token_uri :=
            match dictGet members ("token_uri") with
            | none => some credTokenUriDefault
            | some v => jsonFieldStr (some v)
          client_id := jsonFieldStr (dictGet members ("client_id"))
          client_secret := jsonFieldStr (dictGet members ("client_secret"))
          scopes := loadScopes members
          expired := false }
      .ok (true, { w with auth :=
        { credentials := some creds
          user_email := jsonFieldStr (dictGet members ("user_email")) } })
    | .json _ => .error (.attributeError ("json value has no attribute get"))

/-- The member list `_save_credentials` serialises (lines 253-264), in
source order.  (`getattr` defaults there are dead: every attribute exists
on the credentials object.) -/
def credMembers (c : OAuth2Credentials) (user_email : Option String) :
    List (String × Json) :=
  [(("token"), optStrJson c.token),
   (("refresh_token"), optStrJson c.refresh_token),
   (("id_token"), optStrJson c.id_token),
   (("client_id"), optStrJson c.client_id),
   (("client_secret"), optStrJson c.client_secret),
   (("token_uri"), optStrJson c.token_uri),
   (("scopes"), scopesJson c.scopes),
   (("user_email"), optStrJson user_email)]

/-- `_save_credentials` (lines 242-275): no-op without credentials;
otherwise extract (and cache) the user email, serialise the record, write
it and `chmod` the file to `0o600`.  `env.writeOk` models whether the
write/chmod succeed; on failure the exception is caught and logged
(best-effort), leaving the previous file state.  Directory creation has
no observable effect in this state model. -/
def saveCredentials (env : Env) (w : World) : World :=
  match w.auth.credentials with
  | none => w
  | some c =>
    let r := extractUserEmail w.auth
    if env.writeOk then
      { auth := r.2, fs := some { content := .json (Json.obj (credMembers c r.1)), mode := 0o600 } }
    else { auth := r.2, fs := w.fs }

/-- Message of the `CredentialsNotFoundError` raised by
`_perform_oauth_flow` (lines 157-161). -/
def noCredentialSourceMsg : String :=
  "No OAuth client secrets found and no application default credentials available. Please provide client secrets file or set up application default credentials."

/-- `_perform_oauth_flow` (lines 144-181).  Without a usable client-secrets
path, `google.auth.default()` is tried: success stores the ambient
credentials and returns — without any save — while
`DefaultCredentialsError` becomes `CredentialsNotFoundError`.  Otherwise
the interactive flow runs; success stores the credentials and saves them,
and any exception is wrapped into `AuthenticationError`. -/
def performOauthFlow (env : Env) (w : World) : Except PyErr World :=
  if env.clientSecretsAvailable = false then
    match env.defaultCreds with
    | some c => .ok { w with auth := { w.auth with credentials := some c } }
    | none => .error (.credentialsNotFoundError noCredentialSourceMsg)
  else
    match env.flowResult with
    | .ok c => .ok (saveCredentials env { w with auth := { w.auth with credentials := some c } })
    | .error m => .error (.authenticationError (("OAuth flow failed: ") ++ m))

/-- `_refresh_credentials` (lines 183-201): refresh the stored
credentials, saving on success; `RefreshError` becomes
`TokenRefreshError`. -/
def refreshCredentials (env : Env) (w : World) : Except PyErr World :=
  match w.auth.credentials with
  | none => .error (.tokenRefreshError ("No credentials available to refresh"))
  | some _ =>
    match env.refreshResult with
    | .ok c => .ok (saveCredentials env { w with auth := { w.auth with credentials := some c } })
    | .error m => .error (.tokenRefreshError (("Failed to refresh credentials: ") ++ m))

/-- The guidance message raised when the tool reports a not-logged-in
condition (lines 329-332). -/
def notLoggedInGuidanceMsg : String :=
  "Not authenticated with gcloud. Please run \x27gcloud auth login\x27 first, or use \x27gcphcp auth login\x27 for OAuth flow."

/-- The case-insensitive phrase test of lines 325-328. -/
def notLoggedInPhrase (m : String) : Bool :=
  listInfixOf ("not logged in").data (strLower m).data ||
  listInfixOf ("no active account").data (strLower m).data

/-- The `try` body of `_get_identity_token_without_audience`
(lines 311-357): run `gcloud auth print-identity-token`, classify a
nonzero exit by its stderr, reject an empty stripped token, then run
`gcloud config get-value account`, substituting the placeholder email on a
nonzero exit. -/
def tokenFetchBody (env : Env) : Except PyErr (String × String) :=
  match env.tokenProc with
  | .timeoutExpired => .error .timeoutExpired
  | .fileNotFound => .error .fileNotFoundError
  | .completed rc stdout stderr =>
    if rc ≠ 0 then
      let error_msg := if pyStrip stderr = ("") then ("Failed to get identity token")
        else pyStrip stderr
      if notLoggedInPhrase error_msg then
        .error (.authenticationError notLoggedInGuidanceMsg)
      else
        .error (.authenticationError (("gcloud auth print-identity-token failed: ") ++ error_msg))
    else
      let identity_token := pyStrip stdout
      if identity_token = ("") then
        .error (.authenticationError ("gcloud returned empty identity token"))
      else
        match env.accountProc with
        | .timeoutExpired => .error .timeoutExpired
        | .fileNotFound => .error .fileNotFoundError
        | .completed rc2 stdout2 _ =>
          .ok (identity_token, if rc2 = 0 then pyStrip stdout2 else ("unknown@example.com"))

/-- `_get_identity_token_without_audience` (lines 302-366): the `try`
body followed by the three `except` clauses in source order.  An
`AuthenticationError` raised inside the body matches only the trailing
`except Exception` clause, which replaces it with a new
`AuthenticationError` whose message carries the generic prefix. -/
def getIdentityTokenWithoutAudience (env : Env) : Except PyErr (String × String) :=
  match tokenFetchBody env with
  | .ok r => .ok r
  | .error .timeoutExpired =>
    .error (.authenticationError ("Timeout while calling gcloud command"))
  | .error .fileNotFoundError =>
    .error (.authenticationError ("gcloud command not found. Install Google Cloud SDK or use OAuth flow."))
  | .error e =>
    .error (.authenticationError (("Failed to get identity token: ") ++ errMsg e))

/-- The OAuth fallback path of `authenticate` (lines 80-104): load stored
credentials or run the OAuth flow, refresh if expired, then require
credentials, a truthy `id_token` and a truthy extracted email.  Line 80's
`or` short-circuits: with `force_reauth` set the stored-credential load
is never attempted. -/
def authenticateOauthPath (env : Env) (w : World) (force_reauth : Bool) :
    Except PyErr ((String × String) × World) := do
  let w2 ←
    if force_reauth then performOauthFlow env w
    else do
      let p ← loadStoredCredentials w
      if !p.1 then performOauthFlow env p.2 else pure p.2
  let w3 ← if (match w2.auth.credentials with | some c => c.expired | none => false) then
      refreshCredentials env w2
    else pure w2
  match w3.auth.credentials with
  | none => .error (.authenticationError ("Failed to obtain valid credentials"))
  | some c =>
    if truthyStr c.id_token then
      let r := extractUserEmail w3.auth
      if truthyStr r.1 then
        .ok ((c.id_token.getD (""), r.1.getD ("")), { w3 with auth := r.2 })
      else .error (.authenticationError ("Failed to extract user email from credentials"))
    else .error (.authenticationError ("Failed to obtain ID token from credentials"))

/-- `authenticate` (lines 59-107): try the external tool first, returning
its result untouched on success; on `AuthenticationError` fall back to the
OAuth path; the outer handler wraps `RefreshError` and
`DefaultCredentialsError` — and only those — in `AuthenticationError`. -/
def authenticate (env : Env) (w : World) (force_reauth : Bool) :
    Except PyErr ((String × String) × World) :=
  let body : Except PyErr ((String × String) × World) :=
    match getIdentityTokenWithoutAudience env with
    | .ok r => .ok (r, w)
    | .error e =>
      if isAuthenticationError e then authenticateOauthPath env w force_reauth
      else .error e
  match body with
  | .error e =>
    if isRefreshOrDefaultCredsError e then
      .error (.authenticationError (("Authentication failed: ") ++ errMsg e))
    else .error e
  | .ok r => .ok r

/-- The message of the `AuthenticationError` that the body of
`_get_identity_token_without_audience` raises itself when the token call
completed but failed (lines 323-339): the not-logged-in guidance, the
generic stderr wrap, or the empty-token message. -/
def classifiedTokenErrorMsg (rc : Int) (_stdout stderr : String) : String :=
  if rc ≠ 0 then
    let error_msg := if pyStrip stderr = ("") then ("Failed to get identity token")
      else pyStrip stderr
    if notLoggedInPhrase error_msg then notLoggedInGuidanceMsg
    else ("gcloud auth print-identity-token failed: ") ++ error_msg
  else ("gcloud returned empty identity token")

/-- The world after `self._credentials` has been replaced by `c`. -/
def withCreds (w : World) (c : OAuth2Credentials) : World :=
  { w with auth := { w.auth with credentials := some c } }

/-- A fresh manager state: no in-memory credentials, no credential file. -/
def worldStart : World := { auth := { credentials := none, user_email := none }, fs := none }

/-- Environment for the C1 scenario: both tool calls succeed. -/
def envSc1 : Env :=
  { tokenProc := .completed 0 ("abc.def") ("")
    accountProc := .completed 0 ("user@example.com") ("")
    clientSecretsAvailable := false, defaultCreds := none
    flowResult := .error (""), refreshResult := .error (""), writeOk := true }

/-- Environment for the C8 scenario: the tool reports not-logged-in, no
client secrets, no ambient credentials. -/
def envSc8 : Env :=
  { tokenProc := .completed 1 ("")
      ("ERROR: (gcloud.auth.print-identity-token) You do not currently have an active account. Not logged in.")
    accountProc := .completed 0 ("") ("")
    clientSecretsAvailable := false, defaultCreds := none
    flowResult := .error (""), refreshResult := .error (""), writeOk := true }

/-- Environment whose token call fails with an uncategorised stderr. -/
def envSc10 : Env :=
  { tokenProc := .completed 1 ("") ("boom")
    accountProc := .completed 0 ("") ("")
    clientSecretsAvailable := false, defaultCreds := none
    flowResult := .error (""), refreshResult := .error (""), writeOk := true }

/-- Environment where the token call succeeds but the account lookup
times out. -/
def envSc4timeout : Env :=
  { tokenProc := .completed 0 ("tok.x") (""), accountProc := .timeoutExpired
    clientSecretsAvailable := false, defaultCreds := none
    flowResult := .error (""), refreshResult := .error (""), writeOk := true }

/-- Environment where the token call succeeds and the account lookup
exits nonzero. -/
def envSc4exit : Env :=
  { tokenProc := .completed 0 ("tok.x") ("")
    accountProc := .completed 1 ("") ("no account set")
    clientSecretsAvailable := false, defaultCreds := none
    flowResult := .error (""), refreshResult := .error (""), writeOk := true }

/-- Ambient credentials as `google.auth.default()` would return them. -/
def ambientCreds : OAuth2Credentials :=
  { token := some ("ambient-token"), refresh_token := none, id_token := none,
    token_uri := none, client_id := none, client_secret := none,
    scopes := some REQUIRED_SCOPES, expired := false }

/-- Environment with no client secrets but ambient credentials
available. -/
def envAmbient : Env :=
  { tokenProc := .fileNotFound, accountProc := .fileNotFound
    clientSecretsAvailable := false, defaultCreds := some ambientCreds
    flowResult := .error (""), refreshResult := .error (""), writeOk := true }

/-- The state `_perform_oauth_flow` produces on the ambient branch from a
fresh state: credentials set in memory, credential file still absent. -/
def worldAmbientResult : World :=
  { auth := { credentials := some ambientCreds, user_email := none }, fs := none }

/-- Credentials as minted by a successful interactive flow. -/
def flowCreds : OAuth2Credentials :=
  { token := some ("flow-token"), refresh_token := some ("flow-refresh"),
    id_token := some ("hdr.eyJlbWFpbCI6ImFAYi5jIn0"), token_uri := some credTokenUriDefault,
    client_id := some ("cid"), client_secret := some ("csec"),
    scopes := some REQUIRED_SCOPES, expired := false }

/-- Environment where client secrets exist and the interactive flow
succeeds. -/
def envFlow : Env :=
  { tokenProc := .fileNotFound, accountProc := .fileNotFound
    clientSecretsAvailable := true, defaultCreds := none
    flowResult := .ok flowCreds, refreshResult := .error (""), writeOk := true }

/-- A credential file holding the well-formed JSON object with no keys. -/
def worldEmptyObjFile : World :=
  { auth := { credentials := none, user_email := none }
    fs := some { content := .json (Json.obj []), mode := 0o600 } }

/-- What loading `worldEmptyObjFile` produces: every `.get` falls back to
its default (`None`, or the default token URI and scope list). -/
def credsAllDefaults : OAuth2Credentials :=
  { token := none, refresh_token := none, id_token := none,
    token_uri := some credTokenUriDefault, client_id := none, client_secret := none,
    scopes := some REQUIRED_SCOPES, expired := false }

def worldEmptyObjLoaded : World :=
  { auth := { credentials := some credsAllDefaults, user_email := none }
    fs := some { content := .json (Json.obj []), mode := 0o600 } }

/-- Credentials holding a one-segment (malformed) identity token. -/
def credsBadToken : OAuth2Credentials :=
  { token := some ("t"), refresh_token := none, id_token := some ("x"),
    token_uri := none, client_id := none, client_secret := none,
    scopes := none, expired := false }

/-- A JWT whose payload segment is base64url for a JSON object with an
email member (payload length 23, ≡ 3 mod 4). -/
def tokenWithEmail : String := "hdr.eyJlbWFpbCI6ImFAYi5jIn0"

def tokenWithEmailPayload : List Char := ("eyJlbWFpbCI6ImFAYi5jIn0").data

def tokenWithEmailBytes : List Nat :=
  (urlsafeB64decode (padPayload tokenWithEmailPayload)).getD []

def tokenWithEmailChars : List Char := (utf8Decode tokenWithEmailBytes).getD []

/-- Credentials carrying `tokenWithEmail` as identity token. -/
def credsWithEmailToken : OAuth2Credentials :=
  { token := some ("t"), refresh_token := some ("r"), id_token := some tokenWithEmail,
    token_uri := none, client_id := none, client_secret := none,
    scopes := some REQUIRED_SCOPES, expired := false }

/-- A manager state holding `credsWithEmailToken` and no credential
file. -/
def worldWithCreds : World :=
  { auth := { credentials := some credsWithEmailToken, user_email := none }, fs := none }

theorem jsonFieldStr_optStr (o : Option String) : jsonFieldStr (some (optStrJson o)) = o := by
  cases o <;> rfl

theorem jsonStrList_map_str (l : List String) : jsonStrList (l.map Json.str) = some l := by
  induction l with
  | nil => rfl
  | cons s t ih => simp [List.map, jsonStrList, ih]

theorem loadScopes_credMembers (c : OAuth2Credentials) (e : Option String) :
    loadScopes (credMembers c e) = c.scopes := by
  have h : dictGet (credMembers c e) ("scopes") = some (scopesJson c.scopes) := rfl
  unfold loadScopes
  rw [h]
  cases hsc : c.scopes with
  | some l => simp [scopesJson, jsonStrList_map_str]
  | none => rfl

/-- C1: when the external tool's token call exits 0 with stdout
`"abc.def"` and the account lookup exits 0 with stdout
`"user@example.com"`, `authenticate` returns exactly
`("abc.def", "user@example.com")` with the state untouched.  The claim's
«without invoking the OAuth fallback path» is captured by the conclusion:
the result leaves the world unchanged and holds for every value of the
environment's OAuth-related components (stored file, client secrets,
ambient credentials, flow and refresh outcomes). -/
theorem c1_external_tool_success (env : Env) (w : World)
    (ht : env.tokenProc = .completed 0 ("abc.def") (""))
    (ha : env.accountProc = .completed 0 ("user@example.com") ("")) :
    authenticate env w false = .ok ((("abc.def"), ("user@example.com")), w) := by
  obtain ⟨tp, ap, cse, dc, fr, rr, wo⟩ := env
  obtain rfl : tp = .completed 0 ("abc.def") ("") := ht
  obtain rfl : ap = .completed 0 ("user@example.com") ("") := ha
  rfl

theorem c1_external_tool_success_witness :
    authenticate envSc1 worldStart false = .ok ((("abc.def"), ("user@example.com")), worldStart) :=
  c1_external_tool_success envSc1 worldStart rfl rfl

/-- C8: when the token call exits 1 with the not-logged-in stderr, no
credential file exists, no client secrets are configured and ambient
credentials are unavailable, `authenticate` raises
`CredentialsNotFoundError` — that exact kind, with the guidance message of
`_perform_oauth_flow`, not a generic `AuthenticationError`. -/
theorem c8_no_source_raises_credentials_not_found (env : Env) (w : World)
    (ht : env.tokenProc = .completed 1 ("")
      ("ERROR: (gcloud.auth.print-identity-token) You do not currently have an active account. Not logged in."))
    (hfs : w.fs = none)
    (hcs : env.clientSecretsAvailable = false)
    (hdc : env.defaultCreds = none) :
    authenticate env w false = .error (.credentialsNotFoundError noCredentialSourceMsg) := by
  obtain ⟨tp, ap, cse, dc, fr, rr, wo⟩ := env
  obtain ⟨a, fs⟩ := w
  obtain rfl : tp = .completed 1 ("")
    ("ERROR: (gcloud.auth.print-identity-token) You do not currently have an active account. Not logged in.") := ht
  obtain rfl : cse = false := hcs
  obtain rfl : dc = none := hdc
  obtain rfl : fs = none := hfs
  rfl

theorem c8_no_source_raises_credentials_not_found_witness :
    authenticate envSc8 worldStart false = .error (.credentialsNotFoundError noCredentialSourceMsg) :=
  c8_no_source_raises_credentials_not_found envSc8 worldStart rfl rfl rfl rfl

/-- C10: whenever the token subprocess completes and the body of
`_get_identity_token_without_audience` classifies the outcome as a failure
(nonzero exit — with or without the not-logged-in guidance — or zero exit
with empty stripped stdout), the raised `AuthenticationError` is caught
again by the trailing generic handler of the same function and replaced by
a new `AuthenticationError` whose message is the classified message behind
the generic `Failed to get identity token: ` text — the caller never sees
the classified error unwrapped. -/
theorem c10_classified_errors_rewrapped (env : Env) (rc : Int) (stdout stderr : String)
    (ht : env.tokenProc = .completed rc stdout stderr)
    (hfail : rc ≠ 0 ∨ pyStrip stdout = ("")) :
    getIdentityTokenWithoutAudience env =
      .error (.authenticationError
        (("Failed to get identity token: ") ++ classifiedTokenErrorMsg rc stdout stderr)) := by
  obtain ⟨tp, ap, cse, dc, fr, rr, wo⟩ := env
  obtain rfl : tp = .completed rc stdout stderr := ht
  rcases hfail with hrc | hout
  · unfold getIdentityTokenWithoutAudience tokenFetchBody classifiedTokenErrorMsg
    by_cases hml : notLoggedInPhrase
        (if pyStrip stderr = ("") then ("Failed to get identity token") else pyStrip stderr)
    · simp [hrc, hml, errMsg]
    · simp [hrc, hml, errMsg]
  · have hrc0 : rc = 0 ∨ rc ≠ 0 := em _
    rcases hrc0 with rfl | hrc
    · unfold getIdentityTokenWithoutAudience tokenFetchBody classifiedTokenErrorMsg
      simp [hout, errMsg]
    · unfold getIdentityTokenWithoutAudience tokenFetchBody classifiedTokenErrorMsg
      by_cases hml : notLoggedInPhrase
          (if pyStrip stderr = ("") then ("Failed to get identity token") else pyStrip stderr)
      · simp [hrc, hml, errMsg]
      · simp [hrc, hml, errMsg]

theorem c10_classified_errors_rewrapped_witness :
    getIdentityTokenWithoutAudience envSc10 =
      .error (.authenticationError
        ("Failed to get identity token: gcloud auth print-identity-token failed: boom")) :=
  c10_classified_errors_rewrapped envSc10 1 ("") ("boom") rfl (Or.inl (by decide))

/-- C4 counterexample: the token call succeeds with a nonempty token, yet
a timeout of the account-lookup call does not produce the placeholder
pair — the whole operation fails with the timeout
`AuthenticationError`. -/
theorem c4_counterexample_account_timeout_fails :
    getIdentityTokenWithoutAudience envSc4timeout =
      .error (.authenticationError ("Timeout while calling gcloud command")) := rfl

/-- C4 (amended): when the token call exits 0 with a nonempty stripped
token and the account-lookup call completes with a nonzero exit code, the
placeholder email is substituted and the pair is returned.  (An
account-lookup timeout or missing binary instead aborts the whole fetch
with the corresponding `AuthenticationError`, as the counterexample
shows.) -/
theorem c4_account_lookup_exit_failure_placeholder (env : Env)
    (stdout stderr stdout2 stderr2 : String) (rc2 : Int)
    (ht : env.tokenProc = .completed 0 stdout stderr)
    (hne : pyStrip stdout ≠ (""))
    (ha : env.accountProc = .completed rc2 stdout2 stderr2)
    (hrc2 : rc2 ≠ 0) :
    getIdentityTokenWithoutAudience env = .ok (pyStrip stdout, ("unknown@example.com")) := by
  obtain ⟨tp, ap, cse, dc, fr, rr, wo⟩ := env
  obtain rfl : tp = .completed 0 stdout stderr := ht
  obtain rfl : ap = .completed rc2 stdout2 stderr2 := ha
  unfold getIdentityTokenWithoutAudience tokenFetchBody
  simp [hne, hrc2]

theorem c4_account_lookup_exit_failure_placeholder_witness :
    getIdentityTokenWithoutAudience envSc4exit = .ok (("tok.x"), ("unknown@example.com")) :=
  c4_account_lookup_exit_failure_placeholder envSc4exit ("tok.x") ("") ("") ("no account set") 1
    rfl (by decide) rfl (by decide)

/-- C2 counterexample: a credential file holding the well-formed JSON
object with no keys at all — required keys all missing — does not produce
the absent outcome `False`: every `.get` falls back to its default and
the load reports success. -/
theorem c2_counterexample_missing_keys_load_succeeds :
    ¬ ∃ w', loadStoredCredentials worldEmptyObjFile = .ok (false, w') := by
  rintro ⟨w', h⟩
  have he : loadStoredCredentials worldEmptyObjFile = .ok (true, worldEmptyObjLoaded) := rfl
  rw [he] at h
  simp at h

/-- C2 (amended): `_load_stored_credentials` returns `False` without
raising when the file is missing or when its contents fail JSON parsing;
but a well-formed JSON object missing required keys is not treated as
absent — it loads with `None`-defaulted fields and returns `True` (the
`except KeyError` handler is dead code, since every read uses `.get`
with a default). -/
theorem c2_load_fails_soft (w : World) :
    (w.fs = none → loadStoredCredentials w = .ok (false, w)) ∧
    (∀ fd, w.fs = some fd → fd.content = .malformed →
      loadStoredCredentials w = .ok (false, w)) ∧
    (∀ fd members, w.fs = some fd → fd.content = .json (Json.obj members) →
      ∃ w', loadStoredCredentials w = .ok (true, w')) := by
  obtain ⟨a, fs⟩ := w
  refine ⟨fun h => ?_, fun fd h hc => ?_, fun fd members h hc => ?_⟩
  · obtain rfl : fs = none := h
    rfl
  · obtain rfl : fs = some fd := h
    obtain ⟨content, mode⟩ := fd
    obtain rfl : content = .malformed := hc
    rfl
  · obtain rfl : fs = some fd := h
    obtain ⟨content, mode⟩ := fd
    obtain rfl : content = .json (Json.obj members) := hc
    exact ⟨_, rfl⟩

theorem c2_load_fails_soft_witness :
    loadStoredCredentials worldStart = .ok (false, worldStart) :=
  (c2_load_fails_soft worldStart).1 rfl

/-- C3 counterexample: with no client secrets configured and ambient
default credentials available, `_perform_oauth_flow` succeeds — yet the
credential file stays absent: the ambient branch returns before any call
to `_save_credentials`, so the resulting record is not persisted. -/
theorem c3_counterexample_ambient_branch_not_persisted :
    performOauthFlow envAmbient worldStart = .ok worldAmbientResult ∧
    worldAmbientResult.fs = none :=
  ⟨rfl, rfl⟩

/-- C3 (amended): on success of the interactive authorization-code branch
(client secrets available, flow succeeds, file write succeeds) the
resulting credential record is persisted via `_save_credentials` before
the run returns; the ambient/default-credentials branch instead returns
without persisting, as the counterexample shows. -/
theorem c3_interactive_branch_persists (env : Env) (w : World) (c : OAuth2Credentials)
    (hcs : env.clientSecretsAvailable = true)
    (hf : env.flowResult = .ok c)
    (hwk : env.writeOk = true) :
    performOauthFlow env w = .ok (saveCredentials env (withCreds w c)) ∧
    (saveCredentials env (withCreds w c)).fs =
      some { content := .json (Json.obj
               (credMembers c (extractUserEmail (withCreds w c).auth).1))
             mode := 0o600 } := by
  constructor
  · unfold performOauthFlow
    rw [hcs, hf]
    simp [withCreds]
  · unfold saveCredentials withCreds
    simp [hwk]

theorem c3_interactive_branch_persists_witness :
    performOauthFlow envFlow worldStart = .ok (saveCredentials envFlow (withCreds worldStart flowCreds)) ∧
    (saveCredentials envFlow (withCreds worldStart flowCreds)).fs =
      some { content := .json (Json.obj
               (credMembers flowCreds (extractUserEmail (withCreds worldStart flowCreds).auth).1))
             mode := 0o600 } :=
  c3_interactive_branch_persists envFlow worldStart flowCreds rfl rfl rfl

/-- C9: after every successful save of a credential record (credentials
present in memory, write and chmod succeed), the credential file's
permission bits are `0o600`: owner read/write only, nothing for group or
other (`mode % 64 = 0` covers the six group/other bits).  The model's
save either performs both the write and the `chmod` or neither, matching
the code's single `try` block around them. -/
theorem c9_save_sets_owner_only_permissions (env : Env) (w : World) (c : OAuth2Credentials)
    (hc : w.auth.credentials = some c) (hwk : env.writeOk = true) :
    ∃ fd, (saveCredentials env w).fs = some fd ∧ fd.mode = 0o600 ∧ fd.mode % 64 = 0 := by
  obtain ⟨⟨creds, ue⟩, fs⟩ := w
  obtain rfl : creds = some c := hc
  obtain ⟨tp, ap, cse, dc, fr, rr, wo⟩ := env
  obtain rfl : wo = true := hwk
  refine ⟨_, rfl, rfl, ?_⟩
  norm_num

theorem c9_save_sets_owner_only_permissions_witness :
    ∃ fd, (saveCredentials envFlow worldWithCreds).fs = some fd ∧
      fd.mode = 0o600 ∧ fd.mode % 64 = 0 :=
  c9_save_sets_owner_only_permissions envFlow worldWithCreds credsWithEmailToken rfl rfl

/-- C5: with no previously cached email, every malformed identity token —
fewer than two dot-separated segments, a second segment on which the
base64url decode raises after padding, a decoded payload that is not
valid UTF-8 or not valid JSON, or a JSON object without an email member —
makes `_extract_user_email` produce no email; the model's totality is the
image of the catch-all `except` clause that keeps the Python function
from raising.  Two failure categories carry side conditions delimiting
the domain on which the executable models fail exactly when CPython
raises: the decode-failure case requires an alphabet-only payload (there
the decode raises precisely when the data length is ≡ 1 mod 4, while
junk bytes would be discarded, not rejected, by `binascii`), and the
parse-failure case requires backslash-free text (there the model parser
and `json.loads` accept the same language, while escaped text could
carry lone-surrogate escapes that CPython accepts but a Lean `Char`
cannot represent). -/
theorem c5_extractor_malformed_absent (a : AuthState) (c : OAuth2Credentials) (tok : String)
    (hu : a.user_email = none) (hc : a.credentials = some c) (hid : c.id_token = some tok)
    (hmal : (splitOnChar ('.') tok.data).length < 2 ∨
      (∃ pre payload rest, splitOnChar ('.') tok.data = pre :: payload :: rest ∧
        (((∀ ch ∈ payload, (b64UrlVal ch).isSome) ∧
            urlsafeB64decode (padPayload payload) = none) ∨
         (∃ bytes, urlsafeB64decode (padPayload payload) = some bytes ∧
           (utf8Decode bytes = none ∨
            (∃ chars, utf8Decode bytes = some chars ∧
              ((('\\' ∉ chars) ∧ jsonLoads (String.mk chars) = none) ∨
               (∃ members, jsonLoads (String.mk chars) = some (Json.obj members) ∧
                 dictGet members ("email") = none)))))))) :
    (extractUserEmail a).1 = none := by
  have hext : extractFromToken tok = none ∨ extractFromToken tok = some none := by
    unfold extractFromToken
    rcases hmal with hlen | ⟨pre, payload, rest, hsplit, hrest⟩
    · rcases hsp : splitOnChar ('.') tok.data with _ | ⟨p, tl⟩
      · left; rfl
      · rcases tl with _ | ⟨q, tl2⟩
        · left; rfl
        · exfalso
          rw [hsp] at hlen
          simp only [List.length_cons] at hlen
          omega
    · simp only [hsplit]
      rcases hrest with ⟨halpha, hb⟩ | ⟨bytes, hb, hrest2⟩
      · simp only [hb]
        exact Or.inl trivial
      · simp only [hb]
        rcases hrest2 with hu8 | ⟨chars, hu8, hrest3⟩
        · simp only [hu8]
          exact Or.inl trivial
        · simp only [hu8]
          rcases hrest3 with ⟨hnb, hj⟩ | ⟨members, hj, hget⟩
          · simp only [hj]
            exact Or.inl trivial
          · simp only [hj, hget, jsonFieldStr]
            exact Or.inr trivial
  by_cases htok : tok = ("")
  · simp [extractUserEmail, hu, hc, hid, truthyStr, htok]
  · rcases hext with he | he <;>
      simp [extractUserEmail, hu, hc, hid, truthyStr, htok, he]

theorem c5_extractor_malformed_absent_witness :
    (extractUserEmail { credentials := some credsBadToken, user_email := none }).1 = none :=
  c5_extractor_malformed_absent _ credsBadToken ("x") rfl rfl rfl (Or.inl (by decide))

/-- C6: with no previously cached email, for every identity token whose
second dot-separated segment base64url-decodes — after `=`-padding to a
multiple of four, for segment lengths ≡ 0, 2 or 3 (mod 4) — to text that
parses as a JSON object with a string email member, `_extract_user_email`
returns exactly that member's value and caches it. -/
theorem c6_extractor_returns_claim (a : AuthState) (c : OAuth2Credentials) (tok : String)
    (pre payload : List Char) (rest : List (List Char)) (bytes : List Nat)
    (chars : List Char) (members : List (String × Json)) (e : String)
    (hu : a.user_email = none) (hc : a.credentials = some c) (hid : c.id_token = some tok)
    (hsplit : splitOnChar ('.') tok.data = pre :: payload :: rest)
    (_hmod : payload.length % 4 = 0 ∨ payload.length % 4 = 2 ∨ payload.length % 4 = 3)
    (hb64 : urlsafeB64decode (padPayload payload) = some bytes)
    (hutf : utf8Decode bytes = some chars)
    (hjson : jsonLoads (String.mk chars) = some (Json.obj members))
    (hemail : dictGet members ("email") = some (Json.str e)) :
    extractUserEmail a = (some e, { a with user_email := some e }) := by
  have htok : tok ≠ ("") := by
    intro h
    have hz : splitOnChar ('.') ("").data = [[]] := rfl
    rw [h, hz] at hsplit
    simp at hsplit
  have hext : extractFromToken tok = some (some e) := by
    unfold extractFromToken
    simp only [hsplit, hb64, hutf, hjson, hemail, jsonFieldStr]
  simp [extractUserEmail, hu, hc, hid, truthyStr, htok, hext]

theorem c6_extractor_returns_claim_witness :
    extractUserEmail { credentials := some credsWithEmailToken, user_email := none } =
      (some ("a@b.c"),
       { credentials := some credsWithEmailToken, user_email := some ("a@b.c") }) :=
  c6_extractor_returns_claim _ credsWithEmailToken tokenWithEmail
    ("hdr").data tokenWithEmailPayload [] tokenWithEmailBytes tokenWithEmailChars
    [(("email"), Json.str ("a@b.c"))] ("a@b.c")
    rfl rfl rfl rfl (Or.inr (Or.inr rfl)) rfl rfl rfl rfl

/-- C7: saving the in-memory credential record and then loading the file
reproduces the same token, refresh token, identity token, scope list
(exactly, so in particular up to order) and resolved user email. -/
theorem c7_save_load_round_trip (env : Env) (w : World) (c : OAuth2Credentials)
    (hc : w.auth.credentials = some c) (hwk : env.writeOk = true) :
    ∃ w' c', loadStoredCredentials (saveCredentials env w) = .ok (true, w') ∧
      w'.auth.credentials = some c' ∧
      c'.token = c.token ∧ c'.refresh_token = c.refresh_token ∧
      c'.id_token = c.id_token ∧ c'.scopes = c.scopes ∧
      w'.auth.user_email = (extractUserEmail w.auth).1 := by
  have hsave : saveCredentials env w =
      { auth := (extractUserEmail w.auth).2
        fs := some { content := .json (Json.obj (credMembers c (extractUserEmail w.auth).1))
                     mode := 0o600 } } := by
    unfold saveCredentials
    simp only [hc, hwk, if_true]
  rw [hsave]
  refine ⟨_, _, rfl, rfl, ?_, ?_, ?_, ?_, ?_⟩
  · exact jsonFieldStr_optStr c.token
  · exact jsonFieldStr_optStr c.refresh_token
  · exact jsonFieldStr_optStr c.id_token
  · exact loadScopes_credMembers c _
  · exact jsonFieldStr_optStr _

theorem c7_save_load_round_trip_witness :
    ∃ w' c', loadStoredCredentials (saveCredentials envFlow worldWithCreds) = .ok (true, w') ∧
      w'.auth.credentials = some c' ∧
      c'.token = credsWithEmailToken.token ∧
      c'.refresh_token = credsWithEmailToken.refresh_token ∧
      c'.id_token = credsWithEmailToken.id_token ∧
      c'.scopes = credsWithEmailToken.scopes ∧
      w'.auth.user_email = (extractUserEmail worldWithCreds.auth).1 :=
  c7_save_load_round_trip envFlow worldWithCreds credsWithEmailToken rfl rfl
